import Mathlib

/-!
Verification of `pkg/client/msp/msp.go` (identity facade of fabric-sdk-go).

The file is a shallow embedding of the Go source. Conventions:
* Go errors are values of the inductive `GoError`; a Go sentinel error
  (compared with `==` in the source) is a `GoError.sentinel` with a unique tag,
  so value equality of the model coincides with identity comparison in Go.
* A Go function returning `(T, error)` becomes `Except GoError T`; a function
  returning only `error` becomes `Option GoError` (`none` = nil error).
* Methods with a pointer receiver (`func (c *MSP) ...`) become functions that
  also return the receiver state at the point of return (explicit state
  passing), so that mutation of the receiver, if any occurred, is visible.
* Lookups that Go reports as `(value, ok bool)` become `Option`.
* Operations that can dereference a nil interface return an `Outcome`, whose
  `nilPanic` case marks the run-time panic Go would raise there.
* Types and collaborator functions that live in sibling files or sibling
  packages of the repository (not part of this excerpt) are modelled from the
  spec; each such definition says so in its doc comment.
-/

/-- Model of Go `error` values used by this file. Sentinels carry a unique tag
standing for the identity of the Go error object. `errorf` is an error freshly
created by `fmt.Errorf` with the given message; `withMessage` is
`errors.WithMessage(cause, msg)` from github.com/pkg/errors. -/
inductive GoError where
  | sentinel (tag : String)
  | errorf (msg : String)
  | withMessage (msg : String) (cause : GoError)
deriving DecidableEq, Repr

/-- The `Error()` text of a modelled Go error (pkg/errors renders
`WithMessage` as `msg: cause`). -/
def GoError.message : GoError → String
  | .sentinel tag => tag
  | .errorf msg => msg
  | .withMessage msg cause => msg ++ ": " ++ cause.message

/-- Modelled from the spec: the collaborator layer's distinguished
"user not found" sentinel `mspctx.ErrUserNotFound` (package
`pkg/context/api/msp`, outside this excerpt). -/
def mspctx.ErrUserNotFound : GoError := .sentinel "mspctx.ErrUserNotFound"

/-- Modelled from the spec: the facade's own public `ErrUserNotFound`
sentinel, declared in a sibling file of package `pkg/client/msp` that is not
part of this excerpt. Per the spec it is a public error value of the facade,
distinct from the collaborator's internal sentinel. -/
def ErrUserNotFound : GoError := .sentinel "msp.ErrUserNotFound"

/-- Opaque byte strings (certificates, CRL blobs). -/
abbrev Bytes := List Nat

/-- Modelled from the spec: the part of the client configuration the facade
reads — the default organization name. -/
structure ClientConfig where
  Organization : String
deriving DecidableEq, Repr

/-- Modelled from the spec: a user as the facade observes it — an MSP
(organization) id, a private-key handle and an enrollment certificate.
The Go `User` is an interface; its three getter methods become fields. -/
structure User where
  MspID : String
  PrivateKey : String
  EnrollmentCertificate : Bytes
deriving DecidableEq, Repr

/-- The signing identity built by `GetSigningIdentity` (sibling-file struct,
fields as constructed at msp.go:192). -/
structure SigningIdentity where
  MspID : String
  PrivateKey : String
  EnrollmentCert : Bytes
deriving DecidableEq, Repr

/-- Modelled from the spec: attribute of a registration request, a
name/key/value triple ("key" marks the attribute as part of the enrollment
key material). Facade-side type (sibling file of package `pkg/client/msp`). -/
structure Attribute where
  Name : String
  Key : Bool
  Value : String
deriving DecidableEq, Repr

/-- Modelled from the spec: facade-side registration request (sibling file):
name, type, max-enrollment-count, affiliation, target CA name, secret and an
ordered attribute list. -/
structure RegistrationRequest where
  Name : String
  «Type» : String
  MaxEnrollments : Int
  Affiliation : String
  CAName : String
  Secret : String
  Attributes : List Attribute
deriving DecidableEq, Repr

/-- Modelled from the spec: facade-side revocation request (sibling file) —
targets are identified by enrollment name, serial+AKI pair, or reason. -/
structure RevocationRequest where
  Name : String
  Serial : String
  AKI : String
  Reason : String
deriving DecidableEq, Repr

/-- Facade-side revoked-certificate identifier (sibling file), as built at
msp.go:171. -/
structure RevokedCert where
  Serial : String
  AKI : String
deriving DecidableEq, Repr

/-- Facade-side revocation response (sibling file), as built at
msp.go:177. -/
structure RevocationResponse where
  RevokedCerts : List RevokedCert
  CRL : Bytes
deriving DecidableEq, Repr

namespace mspapi

/-- Modelled from the spec: collaborator-side (`pkg/msp/api`) attribute,
structurally identical to the facade's. -/
structure Attribute where
  Name : String
  Key : Bool
  Value : String
deriving DecidableEq, Repr

/-- Modelled from the spec: collaborator-side registration request
(`pkg/msp/api`), the shape the CA client consumes; same fields as the
facade's request, including the ordered attribute list. -/
structure RegistrationRequest where
  Name : String
  «Type» : String
  MaxEnrollments : Int
  Affiliation : String
  CAName : String
  Secret : String
  Attributes : List Attribute
deriving DecidableEq, Repr

/-- Modelled from the spec: collaborator-side revocation request
(`pkg/msp/api`). The Go source converts the facade request with a plain type
conversion (msp.go:162), so the two structures have identical fields. -/
structure RevocationRequest where
  Name : String
  Serial : String
  AKI : String
  Reason : String
deriving DecidableEq, Repr

/-- Collaborator-side revoked certificate (`pkg/msp/api`). -/
structure RevokedCert where
  Serial : String
  AKI : String
deriving DecidableEq, Repr

/-- Collaborator-side revocation response (`pkg/msp/api`). -/
structure RevocationResponse where
  RevokedCerts : List RevokedCert
  CRL : Bytes
deriving DecidableEq, Repr

end mspapi

/-- Modelled from the spec: the identity manager collaborator —
`GetUser(name) -> (user, error)`, where the error is the distinguished
not-found sentinel on absence. -/
structure IdentityManager where
  GetUser : String → Except GoError User

/-- Modelled from the spec: the CA client collaborator
(`Enroll(id, secret) -> error`; `Reenroll(id) -> error`;
`Register(request) -> (secret, error)`;
`Revoke(request) -> (response, error)`). -/
structure CAClient where
  Enroll : String → String → Option GoError
  Reenroll : String → Option GoError
  Register : mspapi.RegistrationRequest → Except GoError String
  Revoke : mspapi.RevocationRequest → Except GoError mspapi.RevocationResponse

/-- The type of the identity-manager lookup exposed by the session context:
by organization name, Go result `(mgr, ok)` becomes `Option`. -/
abbrev IdentityManagerLookup : Type := String → Option IdentityManager

/-- The type of the modelled external constructor `msp.NewCAClient`:
organization name and identity manager in, CA client (or error) out. -/
abbrev CAClientConstructor : Type := String → IdentityManager → Except GoError CAClient

/-- Modelled from the spec: the session context (`context.Client`) consumed by
the facade. `IdentityManager` is the lookup by organization name;
`ConfigClient` is the result of `ctx.Config().Client()`; `NewCAClient` models
the external constructor
`msp.NewCAClient(orgName, identityManager, userStore, cryptoSuite, config)`
(package `pkg/msp`, outside this excerpt) — the user store, crypto suite and
configuration it receives all come from this same context, so they are folded
into the field. -/
structure ClientContext where
  IdentityManager : IdentityManagerLookup
  ConfigClient : Except GoError ClientConfig
  NewCAClient : CAClientConstructor

/-- The facade struct (msp.go:23). -/
structure MSP where
  orgName : String
  ctx : ClientContext

/-- `ClientOption` (msp.go:29): a functional parameter for `New`; the Go
option mutates the `*MSP` under construction, so it becomes
`MSP → Except GoError MSP`. -/
def ClientOption : Type := MSP → Except GoError MSP

/-- `WithOrg` (msp.go:32). -/
def WithOrg (orgName : String) : ClientOption :=
  fun msp => .ok { msp with orgName := orgName }

/-- The option-application loop of `New` (msp.go:51): apply each option in
order to the `MSP` under construction, stopping at the first error. -/
def applyClientOptions (msp : MSP) : List ClientOption → Except GoError MSP
  | [] => .ok msp
  | param :: rest =>
    match param msp with
    | .error err => .error err
    | .ok msp1 => applyClientOptions msp1 rest

/-- `New` (msp.go:40). The context provider is a zero-argument supplier, so
its one invocation is modelled by its result. The zero value of the Go
`orgName` field is the empty string. -/
def New (clientProvider : Except GoError ClientContext) (opts : List ClientOption) :
    Except GoError MSP :=
  match clientProvider with
  | .error err => .error (.withMessage "failed to create MSP" err)
  | .ok ctx =>
    match applyClientOptions { orgName := "", ctx := ctx } opts with
    | .error err => .error (.withMessage "failed to create MSP" err)
    | .ok msp =>
      if msp.orgName = "" then
        match ctx.ConfigClient with
        | .error err => .error (.withMessage "failed to create MSP" err)
        | .ok clientConfig => .ok { msp with orgName := clientConfig.Organization }
      else
        .ok msp

/-- `newCAClient` (msp.go:69). The Go message string literal has a lone
apostrophe before `%s` and no closing quote; `\x27` is that apostrophe. -/
def newCAClient (ctx : ClientContext) (orgName : String) : Except GoError CAClient :=
  match ctx.IdentityManager orgName with
  | none => .error (.errorf ("identity manager not found for organization \x27" ++ orgName))
  | some identityManager =>
    match ctx.NewCAClient orgName identityManager with
    | .error err => .error (.withMessage "failed to create CA MSP" err)
    | .ok caClient => .ok caClient

/-- `enrollmentOptions` (msp.go:84). -/
structure enrollmentOptions where
  secret : String
deriving DecidableEq, Repr

/-- `EnrollmentOption` (msp.go:89). -/
def EnrollmentOption : Type := enrollmentOptions → Except GoError enrollmentOptions

/-- `WithSecret` (msp.go:92). -/
def WithSecret (secret : String) : EnrollmentOption :=
  fun o => .ok { o with secret := secret }

/-- The option-application loop of `Enroll` (msp.go:109). -/
def applyEnrollmentOptions (eo : enrollmentOptions) :
    List EnrollmentOption → Except GoError enrollmentOptions
  | [] => .ok eo
  | param :: rest =>
    match param eo with
    | .error err => .error err
    | .ok eo1 => applyEnrollmentOptions eo1 rest

/-- `MSP.Enroll` (msp.go:106). Second component: the receiver state at
return. -/
def MSP.Enroll (c : MSP) (enrollmentID : String) (opts : List EnrollmentOption) :
    Option GoError × MSP :=
  match applyEnrollmentOptions { secret := "" } opts with
  | .error err => (some (.withMessage "failed to enroll" err), c)
  | .ok eo =>
    match newCAClient c.ctx c.orgName with
    | .error err => (some err, c)
    | .ok ca => (ca.Enroll enrollmentID eo.secret, c)

/-- `MSP.Reenroll` (msp.go:124). -/
def MSP.Reenroll (c : MSP) (enrollmentID : String) : Option GoError × MSP :=
  match newCAClient c.ctx c.orgName with
  | .error err => (some err, c)
  | .ok ca => (ca.Reenroll enrollmentID, c)

/-- `MSP.Register` (msp.go:135). The loop at msp.go:140-143 builds the slice
`a` of translated attributes; the composite literal at msp.go:144-151 then
omits the `Attributes` field, so it is the Go zero value (nil slice, here
`[]`) and `a` is never used — the embedding keeps the dead binding. -/
def MSP.Register (c : MSP) (request : RegistrationRequest) :
    Except GoError String × MSP :=
  match newCAClient c.ctx c.orgName with
  | .error err => (.error err, c)
  | .ok ca =>
    let _a : List mspapi.Attribute :=
      request.Attributes.map fun attr =>
        { Name := attr.Name, Key := attr.Key, Value := attr.Value }
    let r : mspapi.RegistrationRequest :=
      { Name := request.Name
        «Type» := request.«Type»
        MaxEnrollments := request.MaxEnrollments
        Affiliation := request.Affiliation
        CAName := request.CAName
        Secret := request.Secret
        Attributes := [] }
    (ca.Register r, c)

/-- The Go type conversion `mspapi.RevocationRequest(*request)`
(msp.go:162): identical fields, converted one-to-one. -/
def RevocationRequest.toAPI (request : RevocationRequest) : mspapi.RevocationRequest :=
  { Name := request.Name
    Serial := request.Serial
    AKI := request.AKI
    Reason := request.Reason }

/-- `MSP.Revoke` (msp.go:157). -/
def MSP.Revoke (c : MSP) (request : RevocationRequest) :
    Except GoError RevocationResponse × MSP :=
  match newCAClient c.ctx c.orgName with
  | .error err => (.error err, c)
  | .ok ca =>
    match ca.Revoke request.toAPI with
    | .error err => (.error err, c)
    | .ok resp =>
      let revokedCerts : List RevokedCert :=
        resp.RevokedCerts.map fun rc => { Serial := rc.Serial, AKI := rc.AKI }
      (.ok { RevokedCerts := revokedCerts, CRL := resp.CRL }, c)

/-- The outcome of a Go call that may also crash on a nil-interface
dereference. -/
inductive Outcome (α : Type) where
  | ok (a : α)
  | err (e : GoError)
  | nilPanic
deriving DecidableEq, Repr

/-- `MSP.GetUser` (msp.go:197). The lookup discards the `ok` flag
(`im, _ := c.ctx.IdentityManager(c.orgName)`); when no manager is registered,
`im` is the nil interface and `im.GetUser` panics — the `nilPanic` case. -/
def MSP.GetUser (c : MSP) (userName : String) : Outcome User × MSP :=
  match c.ctx.IdentityManager c.orgName with
  | none => (.nilPanic, c)
  | some im =>
    match im.GetUser userName with
    | .error err =>
      if err = mspctx.ErrUserNotFound then (.err ErrUserNotFound, c)
      else (.err err, c)
    | .ok user => (.ok user, c)

/-- `MSP.GetSigningIdentity` (msp.go:184). -/
def MSP.GetSigningIdentity (c : MSP) (userName : String) :
    Outcome SigningIdentity × MSP :=
  match c.GetUser userName with
  | (.nilPanic, _) => (.nilPanic, c)
  | (.err err, _) =>
    if err = mspctx.ErrUserNotFound then (.err ErrUserNotFound, c)
    else (.err err, c)
  | (.ok user, _) =>
    (.ok { MspID := user.MspID
           PrivateKey := user.PrivateKey
           EnrollmentCert := user.EnrollmentCertificate }, c)

/-! ### Concrete collaborator stubs used by the closed-form theorems -/

/-- A CA-client stub that accepts every call. -/
def acceptingCA : CAClient :=
  { Enroll := fun _ _ => none
    Reenroll := fun _ => none
    Register := fun _ => .ok "enrollmentsecret"
    Revoke := fun _ => .ok { RevokedCerts := [], CRL := [7, 7] } }

/-- An identity-manager stub that knows no user at all. -/
def emptyIM : IdentityManager :=
  { GetUser := fun _ => .error mspctx.ErrUserNotFound }

/-- A context whose identity-manager lookup always succeeds (with `emptyIM`)
and whose CA-client construction yields `acceptingCA`. -/
def stubCtx : ClientContext :=
  { IdentityManager := fun _ => some emptyIM
    ConfigClient := .ok { Organization := "Org1MSP" }
    NewCAClient := fun _ _ => .ok acceptingCA }

/-- A facade over `stubCtx` for organization `"Org1MSP"`. -/
def stubMSP : MSP := { orgName := "Org1MSP", ctx := stubCtx }

/-- A context with no identity manager registered for any organization. -/
def noIMCtx : ClientContext :=
  { IdentityManager := fun _ => none
    ConfigClient := .ok { Organization := "Org1MSP" }
    NewCAClient := fun _ _ => .ok acceptingCA }

/-- A facade over `noIMCtx`. -/
def noIMMSP : MSP := { orgName := "Org1MSP", ctx := noIMCtx }

/-- A CA-client stub that rejects enrollment attempts with a fixed error. -/
def rejectingCA : CAClient :=
  { Enroll := fun _ _ => some (.errorf "authentication failure")
    Reenroll := fun _ => some (.errorf "authentication failure")
    Register := fun _ => .error (.errorf "authentication failure")
    Revoke := fun _ => .error (.errorf "authentication failure") }

/-- A context whose CA client is `rejectingCA`. -/
def rejectCtx : ClientContext :=
  { IdentityManager := fun _ => some emptyIM
    ConfigClient := .ok { Organization := "Org1MSP" }
    NewCAClient := fun _ _ => .ok rejectingCA }

/-- A facade over `rejectCtx`. -/
def rejectMSP : MSP := { orgName := "Org1MSP", ctx := rejectCtx }

/-- A CA-client probe whose `Register` reports whether the request it
received carries any attributes, making the translated request observable. -/
def attrProbeCA : CAClient :=
  { Enroll := fun _ _ => none
    Reenroll := fun _ => none
    Register := fun r =>
      if r.Attributes = [] then .error (.errorf "no attributes received")
      else .ok "attributes received"
    Revoke := fun _ => .ok { RevokedCerts := [], CRL := [] } }

/-- A context whose CA client is `attrProbeCA`. -/
def attrProbeCtx : ClientContext :=
  { IdentityManager := fun _ => some emptyIM
    ConfigClient := .ok { Organization := "Org1MSP" }
    NewCAClient := fun _ _ => .ok attrProbeCA }

/-- A facade over `attrProbeCtx`. -/
def attrProbeMSP : MSP := { orgName := "Org1MSP", ctx := attrProbeCtx }

/-- A context whose client-configuration lookup fails. -/
def badConfigCtx : ClientContext :=
  { IdentityManager := fun _ => some emptyIM
    ConfigClient := .error (.errorf "config unavailable")
    NewCAClient := fun _ _ => .ok acceptingCA }

/-- A client option that always fails. -/
def failingOption : ClientOption := fun _ => .error (.errorf "bad option")

/-! ### Helper lemmas -/

/-- When the identity manager reports the not-found sentinel, `GetUser`
returns the facade's own sentinel (and an unchanged receiver). -/
theorem MSP.GetUser_eq_of_not_found (c : MSP) (userName : String)
    (im : IdentityManager)
    (him : c.ctx.IdentityManager c.orgName = some im)
    (hu : im.GetUser userName = .error mspctx.ErrUserNotFound) :
    c.GetUser userName = (.err ErrUserNotFound, c) := by
  simp [MSP.GetUser, him, hu]

/-- When the identity manager reports the not-found sentinel,
`GetSigningIdentity` returns the facade's own sentinel. -/
theorem MSP.GetSigningIdentity_eq_of_not_found (c : MSP) (userName : String)
    (im : IdentityManager)
    (him : c.ctx.IdentityManager c.orgName = some im)
    (hu : im.GetUser userName = .error mspctx.ErrUserNotFound) :
    c.GetSigningIdentity userName = (.err ErrUserNotFound, c) := by
  have h := MSP.GetUser_eq_of_not_found c userName im him hu
  simp [MSP.GetSigningIdentity, h, ErrUserNotFound, mspctx.ErrUserNotFound]

/-- `GetUser` never yields the collaborator's internal sentinel. -/
theorem MSP.GetUser_ne_sentinel (c : MSP) (userName : String) :
    (c.GetUser userName).1 ≠ .err mspctx.ErrUserNotFound := by
  cases him : c.ctx.IdentityManager c.orgName with
  | none => simp [MSP.GetUser, him]
  | some im =>
    cases hu : im.GetUser userName with
    | error err =>
      by_cases he : err = mspctx.ErrUserNotFound
      · simp [MSP.GetUser, him, hu, he, ErrUserNotFound, mspctx.ErrUserNotFound]
      · simp [MSP.GetUser, him, hu, he]
    | ok user => simp [MSP.GetUser, him, hu]

/-- `GetSigningIdentity` never yields the collaborator's internal sentinel. -/
theorem MSP.GetSigningIdentity_ne_sentinel (c : MSP) (userName : String) :
    (c.GetSigningIdentity userName).1 ≠ .err mspctx.ErrUserNotFound := by
  cases hg : c.GetUser userName with
  | mk out st =>
    cases out with
    | nilPanic => simp [MSP.GetSigningIdentity, hg]
    | ok user => simp [MSP.GetSigningIdentity, hg]
    | err err =>
      by_cases he : err = mspctx.ErrUserNotFound
      · simp [MSP.GetSigningIdentity, hg, he, ErrUserNotFound, mspctx.ErrUserNotFound]
      · simp [MSP.GetSigningIdentity, hg, he]

/-! ### Claim theorems -/

/-- Claim C1: whenever the identity manager's `GetUser` returns the
distinguished not-found sentinel, both facade operations `GetUser` and
`GetSigningIdentity` return the facade's own `ErrUserNotFound`; and no call
to either operation ever returns the collaborator's internal sentinel. -/
theorem getUser_getSigningIdentity_translate_not_found_sentinel :
    (∀ (c : MSP) (userName : String) (im : IdentityManager),
        c.ctx.IdentityManager c.orgName = some im →
        im.GetUser userName = .error mspctx.ErrUserNotFound →
        (c.GetUser userName).1 = .err ErrUserNotFound ∧
        (c.GetSigningIdentity userName).1 = .err ErrUserNotFound) ∧
    (∀ (c : MSP) (userName : String),
        (c.GetUser userName).1 ≠ .err mspctx.ErrUserNotFound ∧
        (c.GetSigningIdentity userName).1 ≠ .err mspctx.ErrUserNotFound) :=
  ⟨fun c userName im him hu =>
      ⟨by rw [MSP.GetUser_eq_of_not_found c userName im him hu],
       by rw [MSP.GetSigningIdentity_eq_of_not_found c userName im him hu]⟩,
   fun c userName =>
      ⟨MSP.GetUser_ne_sentinel c userName, MSP.GetSigningIdentity_ne_sentinel c userName⟩⟩

/-- Witness for C1: on the concrete facade `stubMSP` (whose identity manager
knows no user), `GetUser "ghost"` and `GetSigningIdentity "ghost"` both
return the facade's `ErrUserNotFound`. -/
theorem getUser_getSigningIdentity_translate_not_found_sentinel_witness :
    (stubMSP.GetUser "ghost").1 = .err ErrUserNotFound ∧
    (stubMSP.GetSigningIdentity "ghost").1 = .err ErrUserNotFound :=
  getUser_getSigningIdentity_translate_not_found_sentinel.1 stubMSP "ghost" emptyIM rfl rfl

/-- Counterexample to claim C2 as stated: with no identity manager registered
for the facade's organization, `GetUser` and `GetSigningIdentity` do NOT fail
with the CA-client-unavailable error — they never resolve a CA client at all.
They discard the lookup's `ok` flag and dereference the nil manager, a
run-time panic, so neither returns any error value. -/
theorem getUser_ignores_missing_identity_manager :
    (noIMMSP.GetUser "alice").1 = Outcome.nilPanic ∧
    (noIMMSP.GetSigningIdentity "alice").1 = Outcome.nilPanic := by
  constructor <;> rfl

/-- Claim C2 (amended): the four CA-delegating operations (Enroll, Reenroll,
Register, Revoke) first resolve a CA client; when no identity manager is
registered for the facade's organization each fails with the
CA-client-unavailable error, whose message contains the organization name.
(`GetUser` and `GetSigningIdentity` do not resolve a CA client.) -/
theorem ca_operations_fail_ca_unavailable_with_org (c : MSP)
    (him : c.ctx.IdentityManager c.orgName = none) :
    (∀ (enrollmentID : String) (opts : List EnrollmentOption) (eo : enrollmentOptions),
        applyEnrollmentOptions { secret := "" } opts = .ok eo →
        (c.Enroll enrollmentID opts).1 =
          some (.errorf ("identity manager not found for organization \x27" ++ c.orgName))) ∧
    (∀ enrollmentID : String,
        (c.Reenroll enrollmentID).1 =
          some (.errorf ("identity manager not found for organization \x27" ++ c.orgName))) ∧
    (∀ request : RegistrationRequest,
        (c.Register request).1 =
          .error (.errorf ("identity manager not found for organization \x27" ++ c.orgName))) ∧
    (∀ request : RevocationRequest,
        (c.Revoke request).1 =
          .error (.errorf ("identity manager not found for organization \x27" ++ c.orgName))) ∧
    (∃ pre post,
        (GoError.errorf
            ("identity manager not found for organization \x27" ++ c.orgName)).message =
          pre ++ c.orgName ++ post) := by
  refine ⟨?_, ?_, ?_, ?_,
    ⟨"identity manager not found for organization \x27", "", by simp [GoError.message]⟩⟩
  · intro enrollmentID opts eo heo
    simp [MSP.Enroll, heo, newCAClient, him]
  · intro enrollmentID
    simp [MSP.Reenroll, newCAClient, him]
  · intro request
    simp [MSP.Register, newCAClient, him]
  · intro request
    simp [MSP.Revoke, newCAClient, him]

/-- Witness for amended C2: on `noIMMSP` (no identity manager registered),
`Reenroll` fails with the CA-client-unavailable error naming the
organization. -/
theorem ca_operations_fail_ca_unavailable_with_org_witness :
    (noIMMSP.Reenroll "bob").1 =
      some (.errorf ("identity manager not found for organization \x27" ++ noIMMSP.orgName)) :=
  (ca_operations_fail_ca_unavailable_with_org noIMMSP rfl).2.1 "bob"

/-- Claim C3, evaluated at the failing input (a registration request carrying
one attribute): the facade builds the translated attribute slice but omits it
from the collaborator request, so the CA client receives a request with no
attributes. The probe CA client errors iff the request it received has an
empty attribute list. -/
theorem register_drops_attributes :
    (attrProbeMSP.Register
        { Name := "alice"
          «Type» := "client"
          MaxEnrollments := 1
          Affiliation := "org1.department1"
          CAName := "ca.org1"
          Secret := "s3cr3t"
          Attributes := [{ Name := "role", Key := true, Value := "admin" }] }).1 =
      .error (.errorf "no attributes received") := by
  rfl

/-- Claim C4: with a non-empty organization supplied through `WithOrg`, the
client configuration is never consulted — construction succeeds with exactly
the option's value for every context, including one whose configuration
lookup fails; with no option supplied, the resolved organization is the
session client configuration's `Organization`. -/
theorem new_resolves_org_from_option_or_config :
    (∀ (ctx : ClientContext) (org : String), org ≠ "" →
        New (.ok ctx) [WithOrg org] = .ok { orgName := org, ctx := ctx }) ∧
    (∀ (ctx : ClientContext) (clientConfig : ClientConfig),
        ctx.ConfigClient = .ok clientConfig →
        New (.ok ctx) [] = .ok { orgName := clientConfig.Organization, ctx := ctx }) := by
  constructor
  · intro ctx org h
    simp [New, applyClientOptions, WithOrg, h]
  · intro ctx clientConfig h
    simp [New, applyClientOptions, h]

/-- Witness for C4: `WithOrg "Org2MSP"` resolves to `"Org2MSP"` even on
`badConfigCtx`, whose configuration lookup fails (so it was not consulted);
with no option, `stubCtx`'s configured organization `"Org1MSP"` is used. -/
theorem new_resolves_org_from_option_or_config_witness :
    New (.ok badConfigCtx) [WithOrg "Org2MSP"] =
      .ok { orgName := "Org2MSP", ctx := badConfigCtx } ∧
    New (.ok stubCtx) [] = .ok { orgName := "Org1MSP", ctx := stubCtx } :=
  ⟨new_resolves_org_from_option_or_config.1 badConfigCtx "Org2MSP" (by decide),
   new_resolves_org_from_option_or_config.2 stubCtx { Organization := "Org1MSP" } rfl⟩

/-- Claim C5: when the underlying CA `Revoke` succeeds, the facade's response
carries exactly the underlying revoked certificates (so an underlying success
matching zero certificates yields a non-error response with an empty
revoked-cert list); when the underlying CA `Revoke` fails, the facade
returns no response, only that error — hence the revoked set is non-empty
only when the underlying operation fully succeeded. -/
theorem revoke_empty_success_and_error_propagation (c : MSP) (ca : CAClient)
    (hca : newCAClient c.ctx c.orgName = .ok ca) :
    (∀ (request : RevocationRequest) (resp : mspapi.RevocationResponse),
        ca.Revoke request.toAPI = .ok resp →
        (c.Revoke request).1 =
          .ok { RevokedCerts :=
                  resp.RevokedCerts.map fun rc => { Serial := rc.Serial, AKI := rc.AKI }
                CRL := resp.CRL }) ∧
    (∀ (request : RevocationRequest) (resp : mspapi.RevocationResponse),
        ca.Revoke request.toAPI = .ok resp → resp.RevokedCerts = [] →
        (c.Revoke request).1 = .ok { RevokedCerts := [], CRL := resp.CRL }) ∧
    (∀ (request : RevocationRequest) (err : GoError),
        ca.Revoke request.toAPI = .error err →
        (c.Revoke request).1 = .error err) := by
  refine ⟨?_, ?_, ?_⟩
  · intro request resp hr
    simp [MSP.Revoke, hca, hr]
  · intro request resp hr hempty
    simp [MSP.Revoke, hca, hr, hempty]
  · intro request err hr
    simp [MSP.Revoke, hca, hr]

/-- Witness for C5: on `stubMSP`, whose CA `Revoke` succeeds matching zero
certificates, the facade returns a non-error response with an empty
revoked-cert list (and the CA's CRL bytes). -/
theorem revoke_empty_success_and_error_propagation_witness :
    (stubMSP.Revoke { Name := "alice", Serial := "", AKI := "", Reason := "" }).1 =
      .ok { RevokedCerts := [], CRL := [7, 7] } :=
  (revoke_empty_success_and_error_propagation stubMSP acceptingCA rfl).2.1
    { Name := "alice", Serial := "", AKI := "", Reason := "" }
    { RevokedCerts := [], CRL := [7, 7] } rfl rfl

/-- Claim C6: whenever the CA client's `Enroll` fails, the facade's `Enroll`
returns that very error value, neither wrapped nor normalized. -/
theorem enroll_propagates_ca_error (c : MSP) (ca : CAClient)
    (enrollmentID secret : String) (err : GoError)
    (hca : newCAClient c.ctx c.orgName = .ok ca)
    (he : ca.Enroll enrollmentID secret = some err) :
    (c.Enroll enrollmentID [WithSecret secret]).1 = some err := by
  simp [MSP.Enroll, applyEnrollmentOptions, WithSecret, hca, he]

/-- Witness for C6: on `rejectMSP`, whose CA rejects enrollment with a fixed
authentication error, `Enroll "alice" [WithSecret "s3cr3t"]` returns exactly
that error. -/
theorem enroll_propagates_ca_error_witness :
    (rejectMSP.Enroll "alice" [WithSecret "s3cr3t"]).1 =
      some (.errorf "authentication failure") :=
  enroll_propagates_ca_error rejectMSP rejectingCA "alice" "s3cr3t"
    (.errorf "authentication failure") rfl rfl

/-- Option application distributes over list append, stopping at the first
error. -/
theorem applyClientOptions_append (msp : MSP) (opts1 opts2 : List ClientOption) :
    applyClientOptions msp (opts1 ++ opts2) =
      match applyClientOptions msp opts1 with
      | .error err => .error err
      | .ok msp1 => applyClientOptions msp1 opts2 := by
  induction opts1 generalizing msp with
  | nil => simp [applyClientOptions]
  | cons o rest ih =>
    cases ho : o msp with
    | error err => simp [applyClientOptions, ho]
    | ok msp1 => simp [applyClientOptions, ho, ih]

/-- Claim C7: construction fails fast — a provider error is returned (wrapped
as a construction error) for any option list; and if the options up to some
point succeed and the next option fails, `New` returns that option's error
wrapped, independently of all later options (none is applied). -/
theorem new_fails_fast_on_provider_and_option_errors :
    (∀ (err : GoError) (opts : List ClientOption),
        New (.error err) opts = .error (.withMessage "failed to create MSP" err)) ∧
    (∀ (ctx : ClientContext) (opts1 opts2 : List ClientOption) (o : ClientOption)
        (msp1 : MSP) (err : GoError),
        applyClientOptions { orgName := "", ctx := ctx } opts1 = .ok msp1 →
        o msp1 = .error err →
        New (.ok ctx) (opts1 ++ o :: opts2) =
          .error (.withMessage "failed to create MSP" err)) := by
  constructor
  · intro err opts
    rfl
  · intro ctx opts1 opts2 o msp1 err h1 h2
    have hall : applyClientOptions { orgName := "", ctx := ctx } (opts1 ++ o :: opts2) =
        .error err := by
      rw [applyClientOptions_append, h1]
      simp [applyClientOptions, h2]
    simp [New, hall]

/-- Witness for C7: a failing option placed between two `WithOrg` options
makes `New` fail with the wrapped option error; the later option is never
applied. -/
theorem new_fails_fast_on_provider_and_option_errors_witness :
    New (.ok stubCtx) ([WithOrg "Org2MSP"] ++ failingOption :: [WithOrg "Org3MSP"]) =
      .error (.withMessage "failed to create MSP" (.errorf "bad option")) :=
  new_fails_fast_on_provider_and_option_errors.2 stubCtx
    [WithOrg "Org2MSP"] [WithOrg "Org3MSP"] failingOption
    { orgName := "Org2MSP", ctx := stubCtx } (.errorf "bad option") rfl rfl

/-- `Enroll` returns the receiver unchanged. -/
theorem MSP.Enroll_snd (c : MSP) (enrollmentID : String)
    (opts : List EnrollmentOption) :
    (c.Enroll enrollmentID opts).2 = c := by
  cases hx : applyEnrollmentOptions { secret := "" } opts with
  | error err => simp [MSP.Enroll, hx]
  | ok eo =>
    cases hy : newCAClient c.ctx c.orgName with
    | error err => simp [MSP.Enroll, hx, hy]
    | ok ca => simp [MSP.Enroll, hx, hy]

/-- `Reenroll` returns the receiver unchanged. -/
theorem MSP.Reenroll_snd (c : MSP) (enrollmentID : String) :
    (c.Reenroll enrollmentID).2 = c := by
  cases hy : newCAClient c.ctx c.orgName with
  | error err => simp [MSP.Reenroll, hy]
  | ok ca => simp [MSP.Reenroll, hy]

/-- `Register` returns the receiver unchanged. -/
theorem MSP.Register_snd (c : MSP) (request : RegistrationRequest) :
    (c.Register request).2 = c := by
  cases hy : newCAClient c.ctx c.orgName with
  | error err => simp [MSP.Register, hy]
  | ok ca => simp [MSP.Register, hy]

/-- `Revoke` returns the receiver unchanged. -/
theorem MSP.Revoke_snd (c : MSP) (request : RevocationRequest) :
    (c.Revoke request).2 = c := by
  cases hy : newCAClient c.ctx c.orgName with
  | error err => simp [MSP.Revoke, hy]
  | ok ca =>
    cases hr : ca.Revoke request.toAPI with
    | error err => simp [MSP.Revoke, hy, hr]
    | ok resp => simp [MSP.Revoke, hy, hr]

/-- `GetUser` returns the receiver unchanged. -/
theorem MSP.GetUser_snd (c : MSP) (userName : String) :
    (c.GetUser userName).2 = c := by
  cases him : c.ctx.IdentityManager c.orgName with
  | none => simp [MSP.GetUser, him]
  | some im =>
    cases hu : im.GetUser userName with
    | error err =>
      by_cases he : err = mspctx.ErrUserNotFound <;> simp [MSP.GetUser, him, hu, he]
    | ok user => simp [MSP.GetUser, him, hu]

/-- `GetSigningIdentity` returns the receiver unchanged. -/
theorem MSP.GetSigningIdentity_snd (c : MSP) (userName : String) :
    (c.GetSigningIdentity userName).2 = c := by
  cases hg : c.GetUser userName with
  | mk out st =>
    cases out with
    | nilPanic => simp [MSP.GetSigningIdentity, hg]
    | ok user => simp [MSP.GetSigningIdentity, hg]
    | err err =>
      by_cases he : err = mspctx.ErrUserNotFound <;> simp [MSP.GetSigningIdentity, hg, he]

/-- Claim C8: the facade state fixed at construction (the organization name
and the session context) is immutable — each of the six public operations
returns the receiver exactly as it was, for every facade value and every
input. -/
theorem operations_do_not_mutate_facade (c : MSP) (enrollmentID userName : String)
    (opts : List EnrollmentOption) (rreq : RegistrationRequest)
    (vreq : RevocationRequest) :
    (c.Enroll enrollmentID opts).2 = c ∧
    (c.Reenroll enrollmentID).2 = c ∧
    (c.Register rreq).2 = c ∧
    (c.Revoke vreq).2 = c ∧
    (c.GetSigningIdentity userName).2 = c ∧
    (c.GetUser userName).2 = c :=
  ⟨MSP.Enroll_snd c enrollmentID opts, MSP.Reenroll_snd c enrollmentID,
   MSP.Register_snd c rreq, MSP.Revoke_snd c vreq,
   MSP.GetSigningIdentity_snd c userName, MSP.GetUser_snd c userName⟩

/-- Claim C9: the facade performs no validation of the enrollment ID — for
every string, including the empty one, `Enroll` and `Reenroll` return exactly
what the CA client returns for that very ID (the facade forwards it
unchanged and never rejects it itself). -/
theorem enroll_reenroll_forward_id_without_validation (c : MSP) (ca : CAClient)
    (hca : newCAClient c.ctx c.orgName = .ok ca) :
    (∀ enrollmentID : String,
        (c.Enroll enrollmentID []).1 = ca.Enroll enrollmentID "") ∧
    (∀ enrollmentID secret : String,
        (c.Enroll enrollmentID [WithSecret secret]).1 = ca.Enroll enrollmentID secret) ∧
    (∀ enrollmentID : String,
        (c.Reenroll enrollmentID).1 = ca.Reenroll enrollmentID) := by
  refine ⟨?_, ?_, ?_⟩
  · intro enrollmentID
    simp [MSP.Enroll, applyEnrollmentOptions, hca]
  · intro enrollmentID secret
    simp [MSP.Enroll, applyEnrollmentOptions, WithSecret, hca]
  · intro enrollmentID
    simp [MSP.Reenroll, hca]

/-- Witness for C9: on `stubMSP` the empty enrollment ID is forwarded and
accepted — neither `Enroll ""` nor `Reenroll ""` returns an error. -/
theorem enroll_reenroll_forward_id_without_validation_witness :
    (stubMSP.Enroll "" []).1 = none ∧ (stubMSP.Reenroll "").1 = none :=
  ⟨(enroll_reenroll_forward_id_without_validation stubMSP acceptingCA rfl).1 "",
   (enroll_reenroll_forward_id_without_validation stubMSP acceptingCA rfl).2.2 ""⟩

/-- Claim C10: `WithOrg ""` is indistinguishable from omitting the option —
`New` returns the same result for every provider; in particular the
organization is still read from the session's client configuration. -/
theorem withOrg_empty_same_as_omitted :
    (∀ clientProvider : Except GoError ClientContext,
        New clientProvider [WithOrg ""] = New clientProvider []) ∧
    (∀ (ctx : ClientContext) (clientConfig : ClientConfig),
        ctx.ConfigClient = .ok clientConfig →
        New (.ok ctx) [WithOrg ""] =
          .ok { orgName := clientConfig.Organization, ctx := ctx }) := by
  constructor
  · intro clientProvider
    cases clientProvider with
    | error err => rfl
    | ok ctx => simp [New, applyClientOptions, WithOrg]
  · intro ctx clientConfig h
    simp [New, applyClientOptions, WithOrg, h]

/-- Witness for C10: constructing over `stubCtx` with `WithOrg ""` still
resolves the organization from the client configuration (`"Org1MSP"`). -/
theorem withOrg_empty_same_as_omitted_witness :
    New (.ok stubCtx) [WithOrg ""] = .ok { orgName := "Org1MSP", ctx := stubCtx } :=
  withOrg_empty_same_as_omitted.2 stubCtx { Organization := "Org1MSP" } rfl
